import Mathlib

/-!
Verification of the aggregation and classification logic of the EDF beacon
data analyzer (`beacon_analyzer_app.py`).

The embedding models the engine-level operations the specification describes:

* time/beacon filtering of readings (`get_dataframe_from_database`, lines
  47-77: `WHERE event.DateTime BETWEEN ? AND ?` plus an optional
  `beacon.Description IN (...)` clause, and the in-memory re-filter of
  `create_beacon_temperature_schematic`, line 180: `>= start AND <= end`,
  both ends inclusive);
* the per-beacon maximum-temperature summary with one-decimal rounding and
  three-way classification (`create_beacon_temperature_schematic`, lines
  176-238, and the summary metrics in `main`, lines 523-534);
* the time-bucket resampling with mean temperatures and median signal
  strength (`create_interactive_plot`, lines 79-145, which calls pandas
  `resample(time_window)` with its defaults `closed='left'`, `label='left'`,
  `origin='start_day'`).

Modelling conventions: timestamps are natural numbers counting minutes
(second-resolution detail is irrelevant to every claim, which all speak in
whole minutes); temperature and signal values are exact rationals, with
`Option` for nullable columns (SQL `NULL` / pandas `NaN`).  Python's
comparison semantics for `NaN` (every comparison returns `False`) are
reflected where they matter, in `classifyMax`.
-/

namespace BeaconAnalyzer

/-- Reading: one row of the joined query of `get_dataframe_from_database`
(lines 60-71): `DateTime`, `BeaconDescription`, `ExternalSensorTemperature`,
`ExternalSensorTemperatureExt1`, `RSSI`.  The three sensor columns are
nullable. -/
structure Reading where
  timestamp : ℕ
  beacon_id : String
  temp_primary : Option ℚ
  temp_secondary : Option ℚ
  signal_strength : Option ℚ
  deriving DecidableEq

/-- Classification: the three colour bands of the schematic
(`lightgreen` / `yellow` / `lightcoral`, lines 202-209). -/
inductive Classification where
  | NEAR_TARGET
  | MODERATE_OFFSET
  | FAR_OFFSET
  deriving DecidableEq

/-- BeaconSummary: one cell of the schematic grid for a beacon: its name,
its maximum primary temperature rounded to one decimal (lines 186, 200,
`none` when every reading of the beacon has a null temperature, which in
pandas is a `NaN` entry of the `groupby(...).max()` result), and the colour
band (lines 202-209). -/
structure BeaconSummary where
  beacon_id : String
  max_temp : Option ℚ
  classification : Classification
  deriving DecidableEq

/-- BucketRow: one resample bucket of `create_interactive_plot` (lines
86-91): the bucket start time and the three aggregates, `none` when the
bucket holds no non-null value of the column (pandas `NaN`). -/
structure BucketRow where
  bucket_start : ℕ
  mean_temp_primary : Option ℚ
  mean_temp_secondary : Option ℚ
  median_signal_strength : Option ℚ
  deriving DecidableEq

/-- The error taxonomy named by the specification (section 7).  No code path
of the source ever raises either error; the type exists so the spec's
error-behaviour claims can be stated against the code. -/
inductive EngineError where
  | invalidRange
  | invalidBucketWidth
  deriving DecidableEq

/-- classifyTemp: the colour decision of the schematic, lines 203-209:
`temp_diff = abs(max_temp - target_temp)`, then `temp_diff <= 5` green,
`elif temp_diff <= 15` yellow, `else` red. -/
def classifyTemp (max_temp target_temp : ℚ) : Classification :=
  if |max_temp - target_temp| ≤ 5 then Classification.NEAR_TARGET
  else if |max_temp - target_temp| ≤ 15 then Classification.MODERATE_OFFSET
  else Classification.FAR_OFFSET

/-- classifyMax: classification of an optional (possibly `NaN`) maximum.
With `max_temp = NaN`, Python evaluates `abs(nan - target) <= 5` and
`... <= 15` both to `False`, so lines 204-209 fall through to the red
(`FAR_OFFSET`) branch. -/
def classifyMax (m : Option ℚ) (target_temp : ℚ) : Classification :=
  match m with
  | some v => classifyTemp v target_temp
  | none => Classification.FAR_OFFSET

/-- roundHalfEven: the integer rounding used by `Series.round` /
Python `round` (round half to even). -/
def roundHalfEven (x : ℚ) : ℤ :=
  if x - ⌊x⌋ < 1 / 2 then ⌊x⌋
  else if 1 / 2 < x - ⌊x⌋ then ⌊x⌋ + 1
  else if ⌊x⌋ % 2 = 0 then ⌊x⌋ else ⌊x⌋ + 1

/-- round1: `round(x, 1)` as applied by `.round(1)` on line 186. -/
def round1 (x : ℚ) : ℚ := (roundHalfEven (x * 10) : ℚ) / 10

/-- filterReadings: the reading selection of the source.  The time window is
inclusive on both ends at both layers (SQL `BETWEEN ? AND ?`, line 69, and
the in-memory `>= start AND <= end` re-filter, line 180).  The optional
beacon restriction is the `IN` clause of lines 55-58; it is added only
`if selected_beacons:`, so in Python an empty list (falsy) means no
restriction, exactly like `None`. -/
def filterReadings (df : List Reading) (s e : ℕ) (sel : Option (List String)) :
    List Reading :=
  df.filter (fun r =>
    decide (s ≤ r.timestamp) && decide (r.timestamp ≤ e) &&
      (match sel with
       | none => true
       | some l => if l.isEmpty then true else decide (r.beacon_id ∈ l)))

/-- filterReadingsE: `filterReadings` with the result wrapped in the spec's
error type.  The source never raises on any range (a start after the end
simply matches no rows), so the embedding always returns `Except.ok`; the
`EngineError.invalidRange` constructor is never produced. -/
def filterReadingsE (df : List Reading) (s e : ℕ) (sel : Option (List String)) :
    Except EngineError (List Reading) :=
  Except.ok (filterReadings df s e sel)

/-- beaconReadings: the rows of one beacon
(`df[df['BeaconDescription'] == beacon]`, line 81, and the grouping key of
line 186). -/
def beaconReadings (rows : List Reading) (b : String) : List Reading :=
  rows.filter (fun r => decide (r.beacon_id = b))

/-- maxTempOf: `groupby('BeaconDescription')['ExternalSensorTemperature'].max()`
for one beacon (line 186).  pandas `max` skips `NaN` entries and yields `NaN`
(here `none`) when the group has only nulls. -/
def maxTempOf (rows : List Reading) (b : String) : Option ℚ :=
  match (beaconReadings rows b).filterMap (fun r => r.temp_primary) with
  | [] => none
  | x :: xs => some (xs.foldl max x)

/-- sortedBeacons: `beacons = sorted(max_temps.index.tolist())` (line 187):
the distinct beacon names of the rows, sorted ascending.  The `groupby`
index of line 186 holds every distinct `BeaconDescription` of the filtered
frame (all-null groups included). -/
def sortedBeacons (rows : List Reading) : List String :=
  List.insertionSort (· ≤ ·) ((rows.map (fun r => r.beacon_id)).dedup)

/-- mkSummary: the schematic cell of one beacon (lines 199-209): the rounded
group maximum and its colour band. -/
def mkSummary (rows : List Reading) (target_temp : ℚ) (b : String) : BeaconSummary :=
  { beacon_id := b
    max_temp := (maxTempOf rows b).map round1
    classification := classifyMax ((maxTempOf rows b).map round1) target_temp }

/-- summarizeMaxTemperature: the per-beacon summary of
`create_beacon_temperature_schematic`, lines 186-209: one entry per distinct
beacon of the rows, in sorted beacon order. -/
def summarizeMaxTemperature (rows : List Reading) (target_temp : ℚ) :
    List BeaconSummary :=
  (sortedBeacons rows).map (mkSummary rows target_temp)

/-- create_beacon_temperature_schematic, lines 176-238, reduced to its data
content: re-filter the frame to the inclusive window (line 180); when
nothing remains return no summary and the message of line 183; otherwise
return the per-beacon summary and no message. -/
def create_beacon_temperature_schematic (df : List Reading) (s e : ℕ)
    (target_temp : ℚ) : Option (List BeaconSummary) × Option String :=
  let filtered := filterReadings df s e none
  if filtered.isEmpty then
    (none, some "No data found for the specified time range.")
  else
    (some (summarizeMaxTemperature filtered target_temp), none)

/-- tsMin: the earliest timestamp of a row list (the left edge pandas uses
to place the first resample bin). -/
def tsMin : List Reading → ℕ
  | [] => 0
  | r :: rs => rs.foldl (fun a x => min a x.timestamp) r.timestamp

/-- tsMax: the latest timestamp of a row list (the right edge pandas uses to
place the last resample bin). -/
def tsMax : List Reading → ℕ
  | [] => 0
  | r :: rs => rs.foldl (fun a x => max a x.timestamp) r.timestamp

/-- dayOrigin: pandas' `origin='start_day'` anchor for minute frequencies:
midnight of the day of the earliest timestamp (1440 minutes per day).  For
the widths offered by the UI, which all divide a day, this makes bucket
edges calendar-aligned (`:00, :05, :10, ...`). -/
def dayOrigin (rows : List Reading) : ℕ := tsMin rows / 1440 * 1440

/-- bucketIndexLo: index (counted from `dayOrigin`) of the bucket holding
the earliest reading. -/
def bucketIndexLo (rows : List Reading) (w : ℕ) : ℕ :=
  (tsMin rows - dayOrigin rows) / w

/-- bucketIndexHi: index of the bucket holding the latest reading. -/
def bucketIndexHi (rows : List Reading) (w : ℕ) : ℕ :=
  (tsMax rows - dayOrigin rows) / w

/-- meanOpt: pandas `mean()` of a bucket: `NaN` (here `none`) when no
non-null value contributes, the arithmetic mean otherwise. -/
def meanOpt (xs : List ℚ) : Option ℚ :=
  if xs.isEmpty then none else some (xs.sum / (xs.length : ℚ))

/-- medianOpt: pandas `median()` of a bucket: `NaN` when no non-null value
contributes; otherwise sort and take the middle element, or the average of
the two middle elements for an even count. -/
def medianOpt (xs : List ℚ) : Option ℚ :=
  if xs.isEmpty then none
  else
    let s := List.insertionSort (· ≤ ·) xs
    if s.length % 2 = 1 then some (s.getD (s.length / 2) 0)
    else some ((s.getD (s.length / 2 - 1) 0 + s.getD (s.length / 2) 0) / 2)

/-- mkBucketRow: the aggregates of one half-open bucket `[b, b + w)`:
mean of the non-null primary and secondary temperatures, median of the
non-null signal strengths (lines 89-91). -/
def mkBucketRow (rows : List Reading) (b w : ℕ) : BucketRow :=
  let inB := rows.filter (fun r =>
    decide (b ≤ r.timestamp) && decide (r.timestamp < b + w))
  { bucket_start := b
    mean_temp_primary := meanOpt (inB.filterMap (fun r => r.temp_primary))
    mean_temp_secondary := meanOpt (inB.filterMap (fun r => r.temp_secondary))
    median_signal_strength := medianOpt (inB.filterMap (fun r => r.signal_strength)) }

/-- resample: the pandas `resample(time_window)` grid of lines 89-91 with
its defaults for minute frequencies: half-open bins `[origin + k*w,
origin + (k+1)*w)` anchored at the start of the first day, emitted
contiguously from the bin holding the earliest reading through the bin
holding the latest one, empty bins included.  An empty row list produces an
empty grid. -/
def resample (rows : List Reading) (w : ℕ) : List BucketRow :=
  if rows.isEmpty then []
  else
    (List.range (bucketIndexHi rows w - bucketIndexLo rows w + 1)).map
      (fun i => mkBucketRow rows (dayOrigin rows + (bucketIndexLo rows w + i) * w) w)

/-- resampleE: `resample` with the result wrapped in the spec's error type.
The source performs no width validation of its own (any pandas-parsable
positive width resamples fine), so the embedding always returns `Except.ok`;
the `EngineError.invalidBucketWidth` constructor is never produced. -/
def resampleE (rows : List Reading) (w : ℕ) : Except EngineError (List BucketRow) :=
  Except.ok (resample rows w)

/-- create_interactive_plot, lines 79-91, reduced to its data content:
slice the frame to one beacon, return `none` when the slice is empty
(line 83), otherwise the resampled bucket rows. -/
def create_interactive_plot (df : List Reading) (beacon : String) (w : ℕ) :
    Option (List BucketRow) :=
  let bd := beaconReadings df beacon
  if bd.isEmpty then none else some (resample bd w)

/-- enumeratedBucketWidths: the minute values of the resampling widths the
UI selectbox offers (`['1min', '5min', '10min', '30min', '1H']`, lines
461-465).  This list is the only place the enumerated set exists: nothing
downstream validates against it. -/
def enumeratedBucketWidths : List ℕ := [1, 5, 10, 30, 60]

/-- sampleReading1: the first reading of the spec's end-to-end scenario:
`(t=10:00, B1, 110, 112, -70)`, with 10:00 as minute 600 of day 0. -/
def sampleReading1 : Reading :=
  { timestamp := 600, beacon_id := "B1", temp_primary := some 110
    temp_secondary := some 112, signal_strength := some (-70) }

/-- sampleReading2: the second reading of the scenario:
`(t=10:03, B1, 120, 118, -72)`. -/
def sampleReading2 : Reading :=
  { timestamp := 603, beacon_id := "B1", temp_primary := some 120
    temp_secondary := some 118, signal_strength := some (-72) }

/-- nullReading: a reading whose sensor columns are all null. -/
def nullReading : Reading :=
  { timestamp := 700, beacon_id := "B7", temp_primary := none
    temp_secondary := none, signal_strength := none }

/-- loneReading: a single reading at minute 603 with one temperature. -/
def loneReading : Reading :=
  { timestamp := 603, beacon_id := "B1", temp_primary := some 100
    temp_secondary := none, signal_strength := none }

/-! Helper lemmas shared by the claim theorems. -/

/-- Membership in the sorted distinct beacon list is presence in the rows. -/
lemma mem_sortedBeacons {rows : List Reading} {b : String} :
    b ∈ sortedBeacons rows ↔ ∃ r ∈ rows, r.beacon_id = b := by
  unfold sortedBeacons
  rw [(List.perm_insertionSort _ _).mem_iff, List.mem_dedup, List.mem_map]

/-- The sorted distinct beacon list has no duplicates. -/
lemma nodup_sortedBeacons (rows : List Reading) : (sortedBeacons rows).Nodup :=
  ((List.perm_insertionSort _ _).nodup_iff).mpr (List.nodup_dedup _)

/-- The sorted distinct beacon list is sorted ascending. -/
lemma sorted_le_sortedBeacons (rows : List Reading) :
    (sortedBeacons rows).Sorted (· ≤ ·) :=
  List.sorted_insertionSort _ _

/-- The beacon names of the summary entries are exactly the sorted distinct
beacon names of the rows. -/
lemma map_beaconId_summarize (rows : List Reading) (t : ℚ) :
    (summarizeMaxTemperature rows t).map (fun e => e.beacon_id) = sortedBeacons rows := by
  simp only [summarizeMaxTemperature, List.map_map]
  exact List.map_id _

/-- Membership characterization of the pure time filter (no beacon
restriction). -/
lemma mem_filterReadings_none {df : List Reading} {s e : ℕ} {r : Reading} :
    r ∈ filterReadings df s e none ↔
      r ∈ df ∧ s ≤ r.timestamp ∧ r.timestamp ≤ e := by
  simp [filterReadings, List.mem_filter, and_assoc]

/-! Claim theorems. -/

/-- Claim C1: for every per-beacon maximum temperature `m` and target `t`,
the classification is `NEAR_TARGET` exactly when `|m - t| <= 5`,
`MODERATE_OFFSET` exactly when `5 < |m - t| <= 15`, and `FAR_OFFSET` exactly
when `|m - t| > 15`; each band boundary is closed on its lower side (so
`|m - t| = 5` is `NEAR_TARGET` and `|m - t| = 15` is `MODERATE_OFFSET`). -/
theorem C1_classification_bands (m t : ℚ) :
    (classifyTemp m t = Classification.NEAR_TARGET ↔ |m - t| ≤ 5) ∧
    (classifyTemp m t = Classification.MODERATE_OFFSET ↔ 5 < |m - t| ∧ |m - t| ≤ 15) ∧
    (classifyTemp m t = Classification.FAR_OFFSET ↔ 15 < |m - t|) := by
  by_cases h5 : |m - t| ≤ 5
  · simp [classifyTemp, h5]
    linarith
  · by_cases h15 : |m - t| ≤ 15
    · simp [classifyTemp, h5, h15]
      exact not_le.mp h5
    · simp [classifyTemp, h5, h15]
      exact not_le.mp h15

/-- Claim C2 counterexample: on the claimed input set (readings at 10:00 and
10:03 for beacon B1 with primary temperatures 110 and 120, target 115, range
[10:00, 10:05]) the summary classification the code computes is
`NEAR_TARGET` (because `|120 - 115| = 5` lands on the closed lower boundary
of the first band), not `MODERATE_OFFSET` as the claim states. -/
theorem C2_scenario_counterexample :
    (summarizeMaxTemperature
        (filterReadings [sampleReading1, sampleReading2] 600 605 none) 115).map
        (fun entry => entry.classification) = [Classification.NEAR_TARGET] ∧
    Classification.NEAR_TARGET ≠ Classification.MODERATE_OFFSET := by
  constructor
  · simp [filterReadings, summarizeMaxTemperature, sortedBeacons, mkSummary, maxTempOf,
      beaconReadings, sampleReading1, sampleReading2, List.insertionSort, List.orderedInsert,
      classifyMax]
    norm_num [max_def, round1, roundHalfEven, classifyTemp, abs_sub_le_iff]
  · simp

/-- Claim C2 (amended): on the scenario input the summary is exactly
`[{B1, max = 120.0, NEAR_TARGET}]` (the classification is `NEAR_TARGET`, not
`MODERATE_OFFSET`, since the boundary is closed on the lower side), and the
resample output at a 5-minute bucket is exactly one bucket `[10:00, 10:05)`
with `mean_temp_primary = 115`, `mean_temp_secondary = 115` and
`median_signal_strength = -71` (the even-count median averaging the two
middle values). -/
theorem C2_scenario_amended :
    create_beacon_temperature_schematic [sampleReading1, sampleReading2] 600 605 115 =
      (some [{ beacon_id := "B1", max_temp := some 120,
               classification := Classification.NEAR_TARGET }], none) ∧
    create_interactive_plot
        (filterReadings [sampleReading1, sampleReading2] 600 605 none) "B1" 5 =
      some [{ bucket_start := 600, mean_temp_primary := some 115,
              mean_temp_secondary := some 115, median_signal_strength := some (-71) }] := by
  constructor
  · simp [create_beacon_temperature_schematic, filterReadings, summarizeMaxTemperature,
      sortedBeacons, mkSummary, maxTempOf, beaconReadings, sampleReading1, sampleReading2,
      List.insertionSort, List.orderedInsert, classifyMax]
    norm_num [max_def, round1, roundHalfEven, classifyTemp, abs_sub_le_iff]
  · simp [create_interactive_plot, filterReadings, beaconReadings, sampleReading1,
      sampleReading2, resample, tsMin, tsMax, dayOrigin, bucketIndexLo, bucketIndexHi,
      List.range_succ, mkBucketRow, meanOpt, medianOpt, List.insertionSort, List.orderedInsert]
    norm_num

/-- Claim C3 counterexample: a beacon whose only reading has a null
`temp_primary` does appear in the summary output — with an absent maximum
and the fall-through `FAR_OFFSET` band — contradicting the claim that such a
beacon is excluded entirely. -/
theorem C3_null_beacon_counterexample :
    summarizeMaxTemperature [nullReading] 115 =
      [{ beacon_id := "B7", max_temp := none,
         classification := Classification.FAR_OFFSET }] ∧
    "B7" ∈ (summarizeMaxTemperature [nullReading] 115).map (fun e => e.beacon_id) := by
  constructor <;>
    simp [summarizeMaxTemperature, sortedBeacons, mkSummary, maxTempOf, beaconReadings,
      nullReading, List.insertionSort, List.orderedInsert, classifyMax]

/-- Claim C3 (amended): a beacon all of whose readings in the filtered range
have a null `temp_primary` still appears in the max-temperature summary: the
pandas `groupby(...).max()` keeps the group with a `NaN` maximum, so the
beacon is included with an absent maximum value and is classified
`FAR_OFFSET` (the `NaN` comparisons are false, falling through to the red
branch), rather than being excluded. -/
theorem C3_null_beacon_amended (rows : List Reading) (target : ℚ) (b : String)
    (hpresent : ∃ r ∈ rows, r.beacon_id = b)
    (hnull : ∀ r ∈ rows, r.beacon_id = b → r.temp_primary = none) :
    ∃ entry ∈ summarizeMaxTemperature rows target,
      entry.beacon_id = b ∧ entry.max_temp = none ∧
        entry.classification = Classification.FAR_OFFSET := by
  have hb : b ∈ sortedBeacons rows := mem_sortedBeacons.mpr hpresent
  have hmax : maxTempOf rows b = none := by
    have hnil : (beaconReadings rows b).filterMap (fun r => r.temp_primary) = [] := by
      rw [List.filterMap_eq_nil_iff]
      intro r hr
      have hm := List.mem_filter.mp hr
      exact hnull r hm.1 (by simpa using hm.2)
    simp [maxTempOf, hnil]
  refine ⟨mkSummary rows target b, List.mem_map_of_mem _ hb, rfl, ?_, ?_⟩
  · simp [mkSummary, hmax]
  · simp [mkSummary, hmax, classifyMax]

/-- Claim C3 witness: the amended statement evaluated on a concrete all-null
beacon. -/
theorem C3_null_beacon_witness :
    ∃ entry ∈ summarizeMaxTemperature [nullReading] 115,
      entry.beacon_id = "B7" ∧ entry.max_temp = none ∧
        entry.classification = Classification.FAR_OFFSET :=
  C3_null_beacon_amended [nullReading] 115 "B7"
    ⟨nullReading, List.mem_singleton_self _, rfl⟩
    (by intro r hr _; rw [List.mem_singleton] at hr; subst hr; rfl)

/-- Claim C4: for every reading `r`, range `[s, e]` with `s <= e` and
non-empty beacon filter `l`, `r` is kept by the filter iff `s <= r.timestamp
<= e` (inclusive on both ends) and `r.beacon_id` belongs to `l`; with no
filter the time window alone decides; and a beacon filter matching no
reading yields an empty result, not an error. -/
theorem C4_filter_membership (df : List Reading) (s e : ℕ) (l : List String)
    (r : Reading) (_hse : s ≤ e) (hl : l ≠ []) :
    (r ∈ filterReadings df s e (some l) ↔
      r ∈ df ∧ s ≤ r.timestamp ∧ r.timestamp ≤ e ∧ r.beacon_id ∈ l) ∧
    (r ∈ filterReadings df s e none ↔
      r ∈ df ∧ s ≤ r.timestamp ∧ r.timestamp ≤ e) ∧
    ((∀ x ∈ df, x.beacon_id ∉ l) → filterReadings df s e (some l) = []) := by
  obtain ⟨a, as, rfl⟩ : ∃ a as, l = a :: as := by
    cases l with
    | nil => exact absurd rfl hl
    | cons a as => exact ⟨a, as, rfl⟩
  refine ⟨?_, ?_, ?_⟩
  · simp [filterReadings, List.mem_filter, and_assoc]
  · simp [filterReadings, List.mem_filter, and_assoc]
  · intro hnone
    rw [filterReadings, List.filter_eq_nil_iff]
    intro x hx
    simp only [Bool.and_eq_true, decide_eq_true_eq, List.isEmpty_cons, if_false,
      Bool.false_eq_true, not_and]
    intro _ hmem
    exact hnone x hx hmem

/-- Claim C4 witness: the membership characterization evaluated at a
concrete reading, range and filter. -/
theorem C4_filter_membership_witness :
    sampleReading1 ∈ filterReadings [sampleReading1] 0 1000 (some ["B1"]) ↔
      sampleReading1 ∈ [sampleReading1] ∧ 0 ≤ sampleReading1.timestamp ∧
        sampleReading1.timestamp ≤ 1000 ∧ sampleReading1.beacon_id ∈ ["B1"] :=
  (C4_filter_membership [sampleReading1] 0 1000 ["B1"] sampleReading1
    (by norm_num) (by simp)).1

/-- Claim C5 counterexample: for a single reading at minute 603 filtered to
the 20-minute range [600, 620] with 5-minute buckets, the code emits exactly
one bucket (the span of the data), not `ceil(D / w) = 4` buckets of the
filtered range duration as the claim states. -/
theorem C5_grid_counterexample :
    (create_interactive_plot (filterReadings [loneReading] 600 620 none) "B1" 5).map
        List.length = some 1 ∧
    ((620 - 600) + 5 - 1) / 5 = 4 := by
  constructor
  · simp [create_interactive_plot, filterReadings, beaconReadings, loneReading, resample,
      tsMin, tsMax, dayOrigin, bucketIndexLo, bucketIndexHi]
  · norm_num

/-- Claim C5 (amended): for every positive bucket width `w` and non-empty
reading set, resample emits exactly `(tsMax - origin)/w - (tsMin - origin)/w
+ 1` buckets — the floor-aligned grid anchored at the start of the first
day, covering the bucket of the earliest reading through the bucket of the
latest — not `ceil(D / w)` buckets of the filtered range duration.  The
output is strictly ordered by bucket start time, and a bucket containing
zero readings is still emitted, with all three aggregates absent. -/
theorem C5_grid_amended (rows : List Reading) (w : ℕ) (hw : 0 < w) (hne : rows ≠ []) :
    (resample rows w).length = bucketIndexHi rows w - bucketIndexLo rows w + 1 ∧
    ((resample rows w).map (fun row => row.bucket_start)).Pairwise (· < ·) ∧
    ∀ row ∈ resample rows w,
      (∀ r ∈ rows, ¬(row.bucket_start ≤ r.timestamp ∧ r.timestamp < row.bucket_start + w)) →
        row.mean_temp_primary = none ∧ row.mean_temp_secondary = none ∧
          row.median_signal_strength = none := by
  have hE : rows.isEmpty = false := by
    cases rows with
    | nil => exact absurd rfl hne
    | cons a as => rfl
  refine ⟨?_, ?_, ?_⟩
  · simp [resample, hE]
  · simp only [resample, hE, Bool.false_eq_true, if_false, List.map_map]
    rw [List.pairwise_map]
    refine (List.pairwise_lt_range _).imp ?_
    intro i j hij
    show (mkBucketRow rows (dayOrigin rows + (bucketIndexLo rows w + i) * w) w).bucket_start <
      (mkBucketRow rows (dayOrigin rows + (bucketIndexLo rows w + j) * w) w).bucket_start
    simp only [mkBucketRow]
    exact Nat.add_lt_add_left ((Nat.mul_lt_mul_right hw).mpr (Nat.add_lt_add_left hij _)) _
  · intro row hrow hempty
    simp only [resample, hE, Bool.false_eq_true, if_false] at hrow
    obtain ⟨i, _hi, rfl⟩ := List.mem_map.mp hrow
    have hb : (mkBucketRow rows (dayOrigin rows + (bucketIndexLo rows w + i) * w) w).bucket_start =
        dayOrigin rows + (bucketIndexLo rows w + i) * w := rfl
    rw [hb] at hempty
    have hfil : rows.filter (fun r =>
        decide (dayOrigin rows + (bucketIndexLo rows w + i) * w ≤ r.timestamp) &&
          decide (r.timestamp < dayOrigin rows + (bucketIndexLo rows w + i) * w + w)) = [] := by
      rw [List.filter_eq_nil_iff]
      intro r hr
      simp only [Bool.and_eq_true, decide_eq_true_eq, not_and]
      intro h1 h2
      exact hempty r hr ⟨h1, h2⟩
    simp [mkBucketRow, hfil, meanOpt, medianOpt]

/-- Claim C5 witness: the amended bucket count evaluated on a concrete
reading set and width. -/
theorem C5_grid_witness :
    (resample [loneReading] 5).length =
      bucketIndexHi [loneReading] 5 - bucketIndexLo [loneReading] 5 + 1 :=
  (C5_grid_amended [loneReading] 5 (by norm_num) (by simp)).1

/-- Claim C6 counterexample: with `startTime = 1 > endTime = 0` the filter
returns a normal empty result rather than failing with `InvalidRangeError`,
so the claimed "fails iff startTime > endTime" is false at this input. -/
theorem C6_invalid_range_counterexample :
    filterReadingsE [sampleReading2] 1 0 none = Except.ok [] ∧ (0 : ℕ) < 1 := by
  constructor
  · simp [filterReadingsE, filterReadings, sampleReading2]
  · norm_num

/-- Claim C6 (amended): the code contains no `InvalidRangeError`:
`filterReadings` never fails for any bounds.  When `startTime > endTime` it
returns a normal empty result (no timestamp satisfies both inclusive
bounds), and when `startTime <= endTime` it returns a possibly-empty result;
the bounds are never swapped. -/
theorem C6_invalid_range_amended (df : List Reading) (s e : ℕ)
    (sel : Option (List String)) :
    (filterReadingsE df s e sel).isOk = true ∧
    (e < s → filterReadingsE df s e sel = Except.ok []) := by
  refine ⟨rfl, fun h => ?_⟩
  have hnil : filterReadings df s e sel = [] := by
    rw [filterReadings, List.filter_eq_nil_iff]
    intro r hr
    simp only [Bool.and_eq_true, decide_eq_true_eq, not_and]
    intro hand
    omega
  rw [filterReadingsE, hnil]

/-- Claim C6 witness: the amended behaviour evaluated at a concrete reversed
range. -/
theorem C6_invalid_range_witness :
    filterReadingsE [sampleReading1] 1 0 none = Except.ok [] :=
  (C6_invalid_range_amended [sampleReading1] 1 0 none).2 (by norm_num)

/-- Claim C7 counterexample: a 7-minute bucket width lies outside the
enumerated set `{1, 5, 10, 30, 60}`, yet resample succeeds on it rather than
failing with `InvalidBucketWidthError`, so the claimed "fails iff the width
is outside the enumerated set" is false at this input. -/
theorem C7_bucket_width_counterexample :
    (resampleE [loneReading] 7).isOk = true ∧ 7 ∉ enumeratedBucketWidths := by
  constructor
  · rfl
  · simp [enumeratedBucketWidths]

/-- Claim C7 (amended): the code contains no `InvalidBucketWidthError`:
resample succeeds for every positive bucket width (in particular for every
width of the enumerated set `{1, 5, 10, 30, 60}` minutes).  The enumerated
set is enforced only by the UI selectbox that offers those five options, not
by resample. -/
theorem C7_bucket_width_amended :
    (∀ (rows : List Reading) (w : ℕ), 0 < w → (resampleE rows w).isOk = true) ∧
    (∀ w ∈ enumeratedBucketWidths, ∀ rows : List Reading,
      (resampleE rows w).isOk = true) :=
  ⟨fun _ _ _ => rfl, fun _ _ _ => rfl⟩

/-- Claim C7 witness: the amended behaviour evaluated at a concrete
enumerated width. -/
theorem C7_bucket_width_witness : (resampleE [sampleReading2] 5).isOk = true :=
  C7_bucket_width_amended.1 [sampleReading2] 5 (by norm_num)

/-- Claim C8: when no reading falls inside the filtered range, the summary
operation returns no table paired with the caller-visible message
`"No data found for the specified time range."` — a signal distinguished
from a legitimate table (when data exists the message is absent and a
summary is present) — and, being a total function, it raises no runtime
fault on empty input. -/
theorem C8_empty_input_signal (df : List Reading) (s e : ℕ) (target : ℚ) :
    ((∀ r ∈ df, ¬(s ≤ r.timestamp ∧ r.timestamp ≤ e)) →
      create_beacon_temperature_schematic df s e target =
        (none, some "No data found for the specified time range.")) ∧
    ((∃ r ∈ df, s ≤ r.timestamp ∧ r.timestamp ≤ e) →
      (create_beacon_temperature_schematic df s e target).1.isSome = true ∧
      (create_beacon_temperature_schematic df s e target).2 = none) := by
  constructor
  · intro hall
    have hemp : filterReadings df s e none = [] := by
      rw [List.eq_nil_iff_forall_not_mem]
      intro r hr
      obtain ⟨h1, h2, h3⟩ := mem_filterReadings_none.mp hr
      exact hall r h1 ⟨h2, h3⟩
    simp [create_beacon_temperature_schematic, hemp]
  · rintro ⟨r, hr, h1, h2⟩
    have hmem : r ∈ filterReadings df s e none := mem_filterReadings_none.mpr ⟨hr, h1, h2⟩
    cases hcase : filterReadings df s e none with
    | nil => rw [hcase] at hmem; simp at hmem
    | cons a as => simp [create_beacon_temperature_schematic, hcase]

/-- Claim C8 witness: the empty-input signal evaluated on an empty reading
set. -/
theorem C8_empty_input_signal_witness :
    create_beacon_temperature_schematic [] 0 5 115 =
      (none, some "No data found for the specified time range.") :=
  (C8_empty_input_signal [] 0 5 115).1 (by simp)

/-- Claim C9: for every non-empty reading set, the summary's beacon names
are strictly ascending (lexicographic order, so sorted with no duplicate
entry), and every beacon present in the input — in particular every beacon
with a non-null `temp_primary` reading — has exactly one summary entry; no
beacon present in the input is omitted. -/
theorem C9_summary_entries (rows : List Reading) (target : ℚ) (_hne : rows ≠ []) :
    ((summarizeMaxTemperature rows target).map (fun e => e.beacon_id)).Pairwise (· < ·) ∧
    ∀ b : String, (∃ r ∈ rows, r.beacon_id = b) →
      ((summarizeMaxTemperature rows target).map (fun e => e.beacon_id)).count b = 1 := by
  rw [map_beaconId_summarize]
  constructor
  · exact (sorted_le_sortedBeacons rows).lt_of_le (nodup_sortedBeacons rows)
  · intro b hb
    exact List.count_eq_one_of_mem (nodup_sortedBeacons rows) (mem_sortedBeacons.mpr hb)

/-- Claim C9 witness: the exactly-one-entry property evaluated on a concrete
reading set. -/
theorem C9_summary_entries_witness :
    ((summarizeMaxTemperature [sampleReading1] 115).map (fun e => e.beacon_id)).count "B1" = 1 :=
  (C9_summary_entries [sampleReading1] 115 (by simp)).2 "B1"
    ⟨sampleReading1, List.mem_singleton_self _, rfl⟩

/-- Claim C10: every summary entry carries the beacon's maximum rounded to
one decimal with round-half-to-even, and its classification is computed from
that rounded maximum; concretely, a raw maximum of 120.04 against target 115
has unrounded offset 5.04 > 5 yet rounds to 120.0 and classifies
`NEAR_TARGET`, and `round(0.25, 1) = 0.2` exhibits the half-to-even rule. -/
theorem C10_round_half_even (rows : List Reading) (target : ℚ)
    (entry : BeaconSummary) (h : entry ∈ summarizeMaxTemperature rows target) :
    (entry.max_temp = (maxTempOf rows entry.beacon_id).map round1 ∧
     entry.classification = classifyMax entry.max_temp target) ∧
    (round1 (12004 / 100) = 120 ∧ 5 < |(12004 : ℚ) / 100 - 115| ∧
     classifyMax (some (round1 (12004 / 100))) 115 = Classification.NEAR_TARGET ∧
     round1 (1 / 4) = 1 / 5) := by
  have h120 : round1 ((12004 : ℚ) / 100) = 120 := by
    norm_num [round1, roundHalfEven]
  refine ⟨?_, h120, ?_, ?_, ?_⟩
  · obtain ⟨b, hb, rfl⟩ := List.mem_map.mp h
    exact ⟨rfl, rfl⟩
  · have habs : (12004 : ℚ) / 100 - 115 = 126 / 25 := by norm_num
    rw [habs, abs_of_pos (by norm_num)]
    norm_num
  · rw [h120]
    norm_num [classifyMax, classifyTemp, abs_sub_le_iff]
  · norm_num [round1, roundHalfEven]

/-- Claim C10 witness: the rounding-then-classifying shape evaluated on a
concrete summary entry. -/
theorem C10_round_half_even_witness :
    ({ beacon_id := "B1", max_temp := some 110,
       classification := Classification.NEAR_TARGET } : BeaconSummary).max_temp =
        (maxTempOf [sampleReading1] "B1").map round1 ∧
    ({ beacon_id := "B1", max_temp := some 110,
       classification := Classification.NEAR_TARGET } : BeaconSummary).classification =
      classifyMax (some 110) 115 :=
  (C10_round_half_even [sampleReading1] 115
      { beacon_id := "B1", max_temp := some 110,
        classification := Classification.NEAR_TARGET }
      (by
        simp [summarizeMaxTemperature, sortedBeacons, mkSummary, maxTempOf, beaconReadings,
          sampleReading1, List.insertionSort, List.orderedInsert, classifyMax]
        norm_num [round1, roundHalfEven, classifyTemp, abs_sub_le_iff])).1

end BeaconAnalyzer
